import Mathlib

/-!
Shallow embedding of the Dietician & Recipe Builder backend
(`main.py`, `schemas.py`): demo signup/login over a document store,
a pure rule-based diet-plan generator, and a recipe-search proxy.
Python floats are modelled as rationals, machine strings as `String`,
and the external collaborators (document store, recipe API) as
explicit parameters.
-/

/-- The `food_type` literal enum of `DietRequest` (`schemas.py` line 29). -/
inductive FoodType where
  | veg
  | nonVeg
  | vegan
  | lactoseIntolerant
  | glutenFree
  | keto
  | paleo
  | other
deriving DecidableEq, Repr

/-- The `goal` literal enum of `DietRequest` (`schemas.py` line 30). -/
inductive Goal where
  | loseWeight
  | gainWeight
  | maintain
  | postSurgeryGuidance
  | improvePerformance
  | other
deriving DecidableEq, Repr

/-- The `DietRequest` Pydantic model (`schemas.py` lines 22-31). -/
structure DietRequest where
  name : String
  age : ℤ
  height_cm : ℚ
  weight_kg : ℚ
  health_issues : Option String
  medical_history : Option String
  food_type : FoodType
  goal : Goal
  extra_notes : Option String
deriving DecidableEq, Repr

/-- The Pydantic field validators of `DietRequest`: `age` in [1,120],
`height_cm > 0`, `weight_kg > 0`. -/
def DietRequest.Valid (r : DietRequest) : Prop :=
  1 ≤ r.age ∧ r.age ≤ 120 ∧ 0 < r.height_cm ∧ 0 < r.weight_kg

instance (r : DietRequest) : Decidable r.Valid := by
  unfold DietRequest.Valid; infer_instance

/-- Python `round` tie-breaking: round-half-to-even on an exact rational. -/
def roundHalfEven (x : ℚ) : ℤ :=
  if x - ⌊x⌋ < 1/2 then ⌊x⌋
  else if x - ⌊x⌋ > 1/2 then ⌊x⌋ + 1
  else if ⌊x⌋ % 2 = 0 then ⌊x⌋ else ⌊x⌋ + 1

/-- Python `round(x, 1)`: round to one decimal digit, ties to even. -/
def round1 (x : ℚ) : ℚ := (roundHalfEven (10 * x) : ℚ) / 10

/-- The full-precision BMI computed at `main.py` line 55:
`weight_kg / ((height_cm/100) ** 2)`. -/
def bmiOf (info : DietRequest) : ℚ :=
  info.weight_kg / ((info.height_cm / 100) ^ 2)

/-- The conditional-expression chain of `main.py` lines 56-61 assigning
`category` (18.5 is written as the exact rational 37/2). -/
def bmiCategory (bmi : ℚ) : String :=
  if bmi < 37/2 then "underweight"
  else if bmi < 25 then "normal"
  else if bmi < 30 then "overweight"
  else "obese"

def vegProteinLine : String := "Prioritize legumes, tofu, nuts, seeds for protein."

def nonVegProteinLine : String :=
  "Lean proteins like chicken, fish, eggs; minimize fried foods."

def lactoseLine : String := "Use lactose-free dairy or fortified plant milks."

def loseWeightLines : List String :=
  ["Aim for a 300-500 kcal deficit.",
   "High-volume, low-calorie foods (salads, soups).",
   "30-40 minutes of brisk walking or cardio, 5x/week."]

def gainWeightLines : List String :=
  ["300-400 kcal surplus with 1.6-2.2 g/kg protein.",
   "Strength training 3-4x/week.",
   "Add calorie-dense snacks (nut butters, trail mix)."]

def postSurgeryLines : List String :=
  ["Focus on soft, easily digestible foods as advised.",
   "Ensure adequate protein and vitamin C for healing.",
   "Hydrate well and follow medical guidance."]

def balancedPlateLine : String :=
  "Balanced plate: half veggies, quarter protein, quarter whole grains."

/-- One entry of the `day_plan` list of `main.py` lines 91-116. -/
structure Meal where
  meal : String
  ideas : List String
deriving DecidableEq, Repr

/-- The JSON object returned by the `/diet/plan` handler (`main.py`
lines 118-123). -/
structure DietPlan where
  bmi : ℚ
  bmi_category : String
  guidelines : List String
  sample_day : List Meal
deriving DecidableEq, Repr

/-- The `/diet/plan` handler `generate_diet_plan` (`main.py` lines 52-123),
translated clause by clause: the four conditional guideline appends
(lines 63-89), then the three-meal `day_plan` with its conditional
idea substitutions (lines 91-116). -/
def generate_diet_plan (info : DietRequest) : DietPlan :=
  let bmi := bmiOf info
  let category := bmiCategory bmi
  let g1 : List String :=
    if info.food_type = FoodType.veg ∨ info.food_type = FoodType.vegan then
      [vegProteinLine] else []
  let g2 : List String :=
    g1 ++ (if info.food_type = FoodType.nonVeg then [nonVegProteinLine] else [])
  let g3 : List String :=
    g2 ++ (if info.food_type = FoodType.lactoseIntolerant then [lactoseLine] else [])
  let guidelines : List String :=
    g3 ++
      (if info.goal = Goal.loseWeight then loseWeightLines
       else if info.goal = Goal.gainWeight then gainWeightLines
       else if info.goal = Goal.postSurgeryGuidance then postSurgeryLines
       else [balancedPlateLine])
  let day_plan : List Meal :=
    [⟨"Breakfast",
      ["Oatmeal with chia and berries",
       if info.food_type ≠ FoodType.vegan then "Veggie omelette" else "Tofu scramble",
       "Smoothie with spinach, banana, and plant milk"]⟩,
     ⟨"Lunch",
      ["Quinoa bowl with beans and veggies",
       if info.food_type = FoodType.nonVeg then "Grilled chicken salad"
         else "Chickpea salad",
       "Lentil soup with whole-grain toast"]⟩,
     ⟨"Dinner",
      ["Stir-fry veggies with tofu/tempeh",
       if info.food_type = FoodType.nonVeg then "Baked fish with steamed veggies"
         else "Rajma with brown rice",
       "Vegetable khichdi or millet upma"]⟩]
  ⟨round1 bmi, category, guidelines, day_plan⟩

/-- The food_type part of the guideline list: the three independent
conditional appends of `main.py` lines 64-69, in order. -/
def foodLines (ft : FoodType) : List String :=
  (if ft = FoodType.veg ∨ ft = FoodType.vegan then [vegProteinLine] else [])
    ++ (if ft = FoodType.nonVeg then [nonVegProteinLine] else [])
    ++ (if ft = FoodType.lactoseIntolerant then [lactoseLine] else [])

/-- The goal part of the guideline list: the if/elif/else chain of
`main.py` lines 70-89. -/
def goalLines (g : Goal) : List String :=
  if g = Goal.loseWeight then loseWeightLines
  else if g = Goal.gainWeight then gainWeightLines
  else if g = Goal.postSurgeryGuidance then postSurgeryLines
  else [balancedPlateLine]

/-- The `User` Pydantic model (`schemas.py` lines 17-20). Its `password`
field carries `min_length=4`; Pydantic checks it whenever a `User` is
constructed, captured by `User.ValidPassword` and enforced at the one
construction site, inside `signup`. -/
structure User where
  name : String
  email : String
  password : String
deriving DecidableEq, Repr

/-- The `min_length=4` constraint on `User.password`
(`schemas.py` line 20). -/
def User.ValidPassword (u : User) : Prop := 4 ≤ u.password.length

/-- The `AuthPayload` model of `main.py` lines 27-30: optional name,
email, password. -/
structure AuthPayload where
  name : Option String
  email : String
  password : String
deriving DecidableEq, Repr

/-- An HTTPException raised by a handler: status code and detail. -/
structure HTTPError where
  status : ℕ
  detail : String
deriving DecidableEq, Repr

/-- Python truthiness of an optional string: `None` and `""` are falsy. -/
def truthyStr : Option String → Bool
  | none => false
  | some s => s ≠ ""

/-- Python truthiness of an optional list: `None` and `[]` are falsy. -/
def truthyList : Option (List String) → Bool
  | none => false
  | some l => ¬ l.isEmpty

/-- The characters of `email` before the first `@`: exactly
`email.split("@")[0]` in Python. -/
def localPart (email : String) : String :=
  String.mk (email.toList.takeWhile (fun c => c ≠ '@'))

/-- The name stored at signup (`main.py` line 38):
`payload.name or payload.email.split("@")[0]`, with Python truthiness
of `or` (an empty-string name also falls back to the email local-part). -/
def signupName (p : AuthPayload) : String :=
  if truthyStr p.name then p.name.getD ""
  else localPart p.email

/-- The `/auth/signup` handler (`main.py` lines 32-40) over a configured
store. Modelled from the spec: the document store collaborator
(`database.py` is not part of the given sources) keeps the `user`
collection as a list of records; `find({"email": e})` filters by exact
email equality, and `create_document` appends the record and returns a
generated identifier, modelled as the prior length of the collection.
On conflict the handler raises 400 before any insert, so the error case
carries no new collection state. Constructing `User` at `main.py`
line 38 runs the Pydantic validators, and `AuthPayload` puts no bound on
the password, so a fresh-email payload whose password is shorter than 4
characters raises a ValidationError out of the handler (surfaced as
HTTP 500) before any insert; the explicit length branch models that
uncaught exception. -/
def signup (store : List User) (p : AuthPayload) :
    Except HTTPError (List User × ℕ) :=
  let existing := store.filter (fun u => u.email == p.email)
  if existing ≠ [] then Except.error ⟨400, "User already exists"⟩
  else if p.password.length < 4 then Except.error ⟨500, "ValidationError"⟩
  else
    let user : User := ⟨signupName p, p.email, p.password⟩
    Except.ok (store ++ [user], store.length)

/-- The JSON object returned by a successful `/auth/login`
(`main.py` line 49): the stored email and name, never the password. -/
structure LoginResponse where
  email : String
  name : String
deriving DecidableEq, Repr

/-- The `/auth/login` handler (`main.py` lines 42-49). Modelled from the
spec: the document store collaborator is absent from the sources;
`find_one({"email": e, "password": pw})` returns the first stored record
whose email and password both match exactly, or none. `db = none` models
an unconfigured store (500). -/
def login (db : Option (List User)) (p : AuthPayload) :
    Except HTTPError LoginResponse :=
  match db with
  | none => Except.error ⟨500, "Database not configured"⟩
  | some store =>
    match store.find? (fun u => u.email == p.email && u.password == p.password) with
    | none => Except.error ⟨401, "Invalid credentials"⟩
    | some u => Except.ok ⟨u.email, u.name⟩

/-- One meal object of the external recipe API's `meals` list: the five
fields the handler reads (each may be missing, hence `Option`), plus the
remaining fields of the JSON object, which the handler never touches. -/
structure MealJson where
  idMeal : Option String
  strMeal : Option String
  strMealThumb : Option String
  strCategory : Option String
  strArea : Option String
  extras : List (String × String)
deriving DecidableEq, Repr

/-- One normalized entry of the `/recipes/search` results
(`main.py` lines 142-148). -/
structure RecipeResult where
  id : Option String
  title : Option String
  thumbnail : Option String
  category : Option String
  area : Option String
deriving DecidableEq, Repr

/-- The per-meal normalization of `main.py` lines 142-148: keep exactly
the five `m.get(...)` fields, drop everything else. -/
def normalizeMeal (m : MealJson) : RecipeResult :=
  ⟨m.idMeal, m.strMeal, m.strMealThumb, m.strCategory, m.strArea⟩

/-- The external HTTP GET endpoints the proxy can call
(`main.py` lines 131 and 135). -/
inductive ExtCall where
  | searchByName (term : String)
  | filterByIngredients (csv : String)
deriving DecidableEq, Repr

/-- The `RecipeSearch` Pydantic model (`schemas.py` lines 33-37). -/
structure RecipeSearch where
  query : Option String
  ingredients : Option (List String)
  food_type : Option String
  user_email : Option String
deriving DecidableEq, Repr

/-- The `/recipes/search` handler (`main.py` lines 126-156). The external
recipe API is a parameter `env` mapping a call to either a failure
(any exception inside the `try` block: network error, timeout, malformed
JSON) or the parsed body's `meals` field (`none` models JSON null, turned
into `[]` by `data.get("meals") or []`). The result pairs the list of
external calls made with the normalized results; on failure the calls
were still issued, and `except Exception: results = []` empties the
results. The optional fire-and-forget persistence of the query
(line 153-154) touches neither component. -/
def recipe_search (env : ExtCall → Except Unit (Option (List MealJson)))
    (p : RecipeSearch) : List ExtCall × List RecipeResult :=
  let fetched : List ExtCall × Except Unit (List MealJson) :=
    if truthyStr p.query then
      let c := ExtCall.searchByName (p.query.getD "")
      ([c], (env c).map (fun data => data.getD []))
    else if truthyList p.ingredients then
      let c := ExtCall.filterByIngredients (String.intercalate "," (p.ingredients.getD []))
      ([c], (env c).map (fun data => data.getD []))
    else ([], Except.ok [])
  match fetched with
  | (calls, Except.ok meals) => (calls, (meals.take 12).map normalizeMeal)
  | (calls, Except.error _) => (calls, [])

/-- A concrete vegan lose-weight request used to instantiate theorems. -/
def reqVeganLose : DietRequest :=
  ⟨"Asha", 30, 170, 70, none, none, FoodType.vegan, Goal.loseWeight, none⟩

/-- A concrete non-veg request used to instantiate theorems. -/
def reqNonVeg : DietRequest :=
  ⟨"Ben", 28, 170, 70, none, none, FoodType.nonVeg, Goal.maintain, none⟩

/-- A concrete request whose full-precision BMI is exactly 18.5:
height 100 cm, weight 18.5 kg. -/
def reqBoundary : DietRequest :=
  ⟨"Cleo", 40, 100, 37/2, none, none, FoodType.other, Goal.other, none⟩

/-- A concrete stored user record. -/
def alice : User := ⟨"alice", "alice@example.com", "secret1"⟩

/-- A concrete one-record user collection. -/
def store1 : List User := [alice]

/-- A signup payload whose email collides with the stored record. -/
def pDupSignup : AuthPayload := ⟨some "Alice B", "alice@example.com", "other99"⟩

/-- A signup payload with a fresh email and no name. -/
def pNewSignup : AuthPayload := ⟨none, "bob@example.com", "hunter2"⟩

/-- A signup payload with a fresh email and a 3-character password,
shorter than the `min_length=4` of `User.password`. -/
def pShortSignup : AuthPayload := ⟨none, "carol@example.com", "abc"⟩

/-- A login payload matching the stored record exactly. -/
def pGoodLogin : AuthPayload := ⟨none, "alice@example.com", "secret1"⟩

/-- A login payload with the right email but the wrong password. -/
def pBadLogin : AuthPayload := ⟨none, "alice@example.com", "wrong"⟩

/-- Thirteen concrete external meal records (one more than the
truncation limit). -/
def msL : List MealJson :=
  (List.range 13).map (fun i => ⟨some (toString i), none, none, none, none, []⟩)

/-- An external API that answers every call with the 13-meal list. -/
def envOk : ExtCall → Except Unit (Option (List MealJson)) :=
  fun _ => Except.ok (some msL)

/-- An external API that fails on every call. -/
def envFail : ExtCall → Except Unit (Option (List MealJson)) :=
  fun _ => Except.error ()

/-- A recipe search by name. -/
def pQuery : RecipeSearch := ⟨some "chicken", none, some "any", none⟩

/-- A recipe search by ingredient list. -/
def pIngr : RecipeSearch := ⟨none, some ["tomato", "basil"], some "any", none⟩

/-- A recipe search whose query is present but empty. -/
def pEmptyQuery : RecipeSearch := ⟨some "", none, some "any", none⟩

/-- A recipe search with neither query nor ingredients. -/
def pNone : RecipeSearch := ⟨none, none, some "any", none⟩

/-- The guideline list splits as the food_type lines followed by the
goal lines, for every request. -/
theorem guidelines_eq (info : DietRequest) :
    (generate_diet_plan info).guidelines =
      foodLines info.food_type ++ goalLines info.goal := by
  rcases info with ⟨n, a, h, w, hi, mh, ft, g, en⟩
  cases ft <;> cases g <;> rfl
/-- Claim C1: for every valid DietRequest the handler returns
`bmi = round(weight_kg/(height_cm/100)^2, 1)`, and the category is taken
from the full-precision BMI with thresholds exact at the boundaries:
below 18.5 underweight, [18.5, 25) normal, [25, 30) overweight,
30 and above obese. -/
theorem diet_bmi_category_spec (info : DietRequest)
    (hh : 0 < info.height_cm) (hw : 0 < info.weight_kg) :
    (generate_diet_plan info).bmi = round1 (bmiOf info) ∧
    ((generate_diet_plan info).bmi_category = "underweight" ↔ bmiOf info < 37/2) ∧
    ((generate_diet_plan info).bmi_category = "normal" ↔
      37/2 ≤ bmiOf info ∧ bmiOf info < 25) ∧
    ((generate_diet_plan info).bmi_category = "overweight" ↔
      25 ≤ bmiOf info ∧ bmiOf info < 30) ∧
    ((generate_diet_plan info).bmi_category = "obese" ↔ 30 ≤ bmiOf info) := by
  have hcat : (generate_diet_plan info).bmi_category = bmiCategory (bmiOf info) := rfl
  refine ⟨rfl, ?_, ?_, ?_, ?_⟩ <;> rw [hcat] <;> unfold bmiCategory <;>
    split_ifs with h1 h2 h3 <;> simp_all <;>
    first
      | linarith
      | (intro hx; linarith)

/-- Claim C1 witness: at height 100 cm and weight 18.5 kg the
full-precision BMI is exactly 18.5 and the category is normal. -/
theorem diet_bmi_category_witness :
    (generate_diet_plan reqBoundary).bmi_category = "normal" :=
  ((diet_bmi_category_spec reqBoundary (by norm_num [reqBoundary])
      (by norm_num [reqBoundary])).2.2.1).mpr (by norm_num [bmiOf, reqBoundary])
/-- Claim C2: the guideline list depends on (food_type, goal) alone and is
the food_type lines followed by exactly one goal branch; for a vegan
lose-weight request it is exactly the legume/tofu line followed by the
three lose-weight lines. -/
theorem guidelines_deterministic_vegan_lose :
    (∀ r1 r2 : DietRequest, r1.food_type = r2.food_type → r1.goal = r2.goal →
      (generate_diet_plan r1).guidelines = (generate_diet_plan r2).guidelines) ∧
    (∀ r : DietRequest, (generate_diet_plan r).guidelines =
      foodLines r.food_type ++ goalLines r.goal) ∧
    (∀ r : DietRequest, r.food_type = FoodType.vegan → r.goal = Goal.loseWeight →
      (generate_diet_plan r).guidelines = vegProteinLine :: loseWeightLines) := by
  refine ⟨?_, guidelines_eq, ?_⟩
  · intro r1 r2 hf hg
    rw [guidelines_eq, guidelines_eq, hf, hg]
  · intro r hf hg
    rw [guidelines_eq, hf, hg]
    rfl

/-- Claim C2 witness: the concrete vegan lose-weight request yields the
four expected guideline lines in order. -/
theorem guidelines_deterministic_vegan_lose_witness :
    (generate_diet_plan reqVeganLose).guidelines =
      vegProteinLine :: loseWeightLines :=
  guidelines_deterministic_vegan_lose.2.2 reqVeganLose rfl rfl

/-- Claim C3 counterexample: no DietRequest at all (in particular no valid
one) produces guidelines containing the veg/vegan protein line, the
non-veg lean-protein line and the lactose-free line together, because
food_type is a single enum value and the three checks are mutually
exclusive. -/
theorem food_lines_not_all_together_cex :
    ¬ ∃ info : DietRequest,
        vegProteinLine ∈ (generate_diet_plan info).guidelines ∧
        nonVegProteinLine ∈ (generate_diet_plan info).guidelines ∧
        lactoseLine ∈ (generate_diet_plan info).guidelines := by
  rintro ⟨info, h1, h2, h3⟩
  rw [guidelines_eq] at h1 h2 h3
  revert h1 h2 h3
  generalize info.food_type = ft
  generalize info.goal = g
  cases ft <;> cases g <;> decide

/-- Claim C3 amended: the three food_type branches are separate sequential
checks, but they are mutually exclusive, so at most one of the three
food_type lines ever appears in a request's guidelines. -/
theorem food_lines_mutually_exclusive (info : DietRequest) :
    ((generate_diet_plan info).guidelines.countP
      (fun s => s == vegProteinLine || s == nonVegProteinLine || s == lactoseLine))
      ≤ 1 := by
  rw [guidelines_eq]
  generalize info.food_type = ft
  generalize info.goal = g
  cases ft <;> cases g <;> decide

/-- Claim C10: for every valid DietRequest the guideline list is nonempty
with at most 4 entries; the food_type part contributes at most one line,
and the goal part contributes exactly 3 lines for lose-weight,
gain-weight and post-surgery-guidance, and exactly 1 generic line for
every other goal. -/
theorem guidelines_bounds_spec (info : DietRequest) (hv : info.Valid) :
    1 ≤ (generate_diet_plan info).guidelines.length ∧
    (generate_diet_plan info).guidelines.length ≤ 4 ∧
    (generate_diet_plan info).guidelines =
      foodLines info.food_type ++ goalLines info.goal ∧
    (foodLines info.food_type).length ≤ 1 ∧
    (goalLines info.goal).length =
      (if info.goal = Goal.loseWeight ∨ info.goal = Goal.gainWeight ∨
          info.goal = Goal.postSurgeryGuidance then 3 else 1) := by
  refine ⟨?_, ?_, guidelines_eq info, ?_, ?_⟩
  · rw [guidelines_eq]
    generalize info.food_type = ft
    generalize info.goal = g
    cases ft <;> cases g <;> decide
  · rw [guidelines_eq]
    generalize info.food_type = ft
    generalize info.goal = g
    cases ft <;> cases g <;> decide
  · generalize info.food_type = ft
    cases ft <;> decide
  · generalize info.goal = g
    cases g <;> decide

/-- Claim C10 witness: the vegan lose-weight request has 4 guideline
lines, within the stated bounds. -/
theorem guidelines_bounds_witness :
    (generate_diet_plan reqVeganLose).guidelines.length ≤ 4 :=
  (guidelines_bounds_spec reqVeganLose (by decide)).2.1
/-- Claim C4: for every DietRequest the sample day has exactly the three
meals Breakfast, Lunch, Dinner in order, each with exactly 3 ideas, and
the idea at index 1 of each meal follows the substitution rule: non-veg
gets the grilled-chicken lunch and baked-fish dinner, vegan gets the
tofu-scramble breakfast, every other food_type gets the vegetarian
default in every slot. -/
theorem sample_day_spec (info : DietRequest) :
    (generate_diet_plan info).sample_day.map Meal.meal =
      ["Breakfast", "Lunch", "Dinner"] ∧
    (generate_diet_plan info).sample_day.map (fun m => m.ideas.length) =
      [3, 3, 3] ∧
    (info.food_type = FoodType.nonVeg →
      (generate_diet_plan info).sample_day.map (fun m => m.ideas.getD 1 "") =
        ["Veggie omelette", "Grilled chicken salad",
         "Baked fish with steamed veggies"]) ∧
    (info.food_type = FoodType.vegan →
      (generate_diet_plan info).sample_day.map (fun m => m.ideas.getD 1 "") =
        ["Tofu scramble", "Chickpea salad", "Rajma with brown rice"]) ∧
    (info.food_type ≠ FoodType.nonVeg → info.food_type ≠ FoodType.vegan →
      (generate_diet_plan info).sample_day.map (fun m => m.ideas.getD 1 "") =
        ["Veggie omelette", "Chickpea salad", "Rajma with brown rice"]) := by
  rcases info with ⟨n, a, h, w, hi, mh, ft, g, en⟩
  cases ft <;>
    refine ⟨rfl, rfl, ?_, ?_, ?_⟩ <;>
    intro h1 <;>
    first
      | rfl
      | (intro h2; first | rfl | simp_all)
      | simp_all

/-- Claim C4 witness: the concrete non-veg request gets the grilled-chicken
lunch and baked-fish dinner substitutions. -/
theorem sample_day_witness :
    (generate_diet_plan reqNonVeg).sample_day.map (fun m => m.ideas.getD 1 "") =
      ["Veggie omelette", "Grilled chicken salad",
       "Baked fish with steamed veggies"] :=
  (sample_day_spec reqNonVeg).2.2.1 rfl
/-- Claim C5: signup against a stored collection fails with 400
"User already exists" and inserts nothing whenever some record already
has the payload's email (the duplicate check runs before the record is
ever built); a fresh-email payload whose password is shorter than the
`User` minimum of 4 raises a ValidationError (500) with no insert; a
fresh-email payload with a valid password appends exactly one record
and returns a generated identifier; and every successful signup implies
no stored record shared the email, a valid password, and exactly one
appended record. -/
theorem signup_conflict_spec (store : List User) (p : AuthPayload) :
    ((∃ u ∈ store, u.email = p.email) →
      signup store p = Except.error ⟨400, "User already exists"⟩) ∧
    ((∀ u ∈ store, u.email ≠ p.email) → p.password.length < 4 →
      signup store p = Except.error ⟨500, "ValidationError"⟩) ∧
    ((∀ u ∈ store, u.email ≠ p.email) → 4 ≤ p.password.length →
      signup store p =
        Except.ok (store ++ [⟨signupName p, p.email, p.password⟩],
          store.length)) ∧
    (∀ res, signup store p = Except.ok res →
      (∀ u ∈ store, u.email ≠ p.email) ∧
      User.ValidPassword ⟨signupName p, p.email, p.password⟩ ∧
      res.1 = store ++ [⟨signupName p, p.email, p.password⟩]) := by
  have hfilter : ∀ u ∈ store, u.email = p.email →
      u ∈ store.filter (fun v => v.email == p.email) :=
    fun u hu he => List.mem_filter.mpr ⟨hu, by simp [he]⟩
  have hnil : (∀ u ∈ store, u.email ≠ p.email) →
      store.filter (fun v => v.email == p.email) = [] := by
    intro hall
    rw [List.filter_eq_nil_iff]
    intro u hu
    simpa using hall u hu
  refine ⟨?_, ?_, ?_, ?_⟩
  · rintro ⟨u, hu, he⟩
    simp only [signup]
    rw [if_pos (List.ne_nil_of_mem (hfilter u hu he))]
  · intro hall hlen
    simp only [signup]
    rw [if_neg (by simp [hnil hall]), if_pos hlen]
  · intro hall hlen
    simp only [signup]
    rw [if_neg (by simp [hnil hall]), if_neg (by omega)]
  · intro res hres
    simp only [signup] at hres
    by_cases hex : store.filter (fun v => v.email == p.email) = []
    · rw [if_neg (by simp [hex])] at hres
      by_cases hlen : p.password.length < 4
      · rw [if_pos hlen] at hres
        exact absurd hres (by simp)
      · rw [if_neg hlen] at hres
        have hall : ∀ u ∈ store, u.email ≠ p.email := by
          intro u hu he
          have hmem := hfilter u hu he
          rw [hex] at hmem
          simp at hmem
        refine ⟨hall, Nat.not_lt.mp hlen, ?_⟩
        cases hres
        rfl
    · rw [if_pos hex] at hres
      exact absurd hres (by simp)

/-- Claim C5 witness: signing up the stored email fails with 400, a fresh
email with a 3-character password fails validation with 500 and no
insert, and a fresh email with a valid password is appended as one new
record whose name is derived from the email local part. -/
theorem signup_conflict_witness :
    signup store1 pDupSignup = Except.error ⟨400, "User already exists"⟩ ∧
    signup store1 pShortSignup = Except.error ⟨500, "ValidationError"⟩ ∧
    signup store1 pNewSignup =
      Except.ok (store1 ++ [⟨"bob", "bob@example.com", "hunter2"⟩], 1) :=
  ⟨(signup_conflict_spec store1 pDupSignup).1 ⟨alice, by decide, rfl⟩,
   (signup_conflict_spec store1 pShortSignup).2.1 (by decide) (by decide),
   (signup_conflict_spec store1 pNewSignup).2.2.1 (by decide) (by decide)⟩

/-- Claim C6: with a configured store, login returns 401
"Invalid credentials" exactly when no stored record matches both email
and password by exact string equality, and a successful login returns
precisely the matched record's email and name (the response type has no
password field). -/
theorem login_spec (store : List User) (p : AuthPayload) :
    (login (some store) p = Except.error ⟨401, "Invalid credentials"⟩ ↔
      ∀ u ∈ store, ¬(u.email = p.email ∧ u.password = p.password)) ∧
    (∀ res, login (some store) p = Except.ok res →
      ∃ u ∈ store, u.email = p.email ∧ u.password = p.password ∧
        res.email = u.email ∧ res.name = u.name) := by
  constructor
  · cases hf : store.find? (fun u => u.email == p.email && u.password == p.password)
    case none =>
      simp only [login, hf]
      constructor
      · intro _ u hu
        simpa using List.find?_eq_none.mp hf u hu
      · intro _
        trivial
    case some u =>
      simp only [login, hf]
      constructor
      · intro hcontra
        exact absurd hcontra (by simp)
      · intro hall
        have hpred := List.find?_some hf
        have hmem := List.mem_of_find?_eq_some hf
        have := hall u hmem
        simp only [Bool.and_eq_true, beq_iff_eq] at hpred
        exact absurd ⟨hpred.1, hpred.2⟩ this
  · intro res hres
    cases hf : store.find? (fun u => u.email == p.email && u.password == p.password)
    case none =>
      rw [login, hf] at hres
      exact absurd hres (by simp)
    case some u =>
      rw [login, hf] at hres
      have hpred := List.find?_some hf
      have hmem := List.mem_of_find?_eq_some hf
      simp only [Bool.and_eq_true, beq_iff_eq] at hpred
      have hres2 : res = ⟨u.email, u.name⟩ := by
        cases hres
        rfl
      exact ⟨u, hmem, hpred.1, hpred.2, by rw [hres2], by rw [hres2]⟩

/-- Claim C6 witness: the wrong password for the stored email yields 401,
and the correct pair returns the stored name and email. -/
theorem login_witness :
    login (some store1) pBadLogin = Except.error ⟨401, "Invalid credentials"⟩ ∧
    (∃ u ∈ store1, u.email = pGoodLogin.email ∧ u.password = pGoodLogin.password ∧
      ("alice@example.com" : String) = u.email ∧ ("alice" : String) = u.name) :=
  ⟨(login_spec store1 pBadLogin).1.mpr (by decide),
   (login_spec store1 pGoodLogin).2 ⟨"alice@example.com", "alice"⟩ rfl⟩
/-- Reduction of `recipe_search` on a truthy (non-empty) query. -/
theorem recipe_search_query_eq (env : ExtCall → Except Unit (Option (List MealJson)))
    (p : RecipeSearch) (q : String) (hq : p.query = some q) (hne : q ≠ "") :
    recipe_search env p =
      ([ExtCall.searchByName q],
        match env (ExtCall.searchByName q) with
        | Except.ok data => ((data.getD []).take 12).map normalizeMeal
        | Except.error _ => []) := by
  cases henv : env (ExtCall.searchByName q) <;>
    simp [recipe_search, truthyStr, hq, hne, henv, Except.map]

/-- Reduction of `recipe_search` on a falsy query and truthy (non-empty)
ingredient list. -/
theorem recipe_search_ingr_eq (env : ExtCall → Except Unit (Option (List MealJson)))
    (p : RecipeSearch) (l : List String) (hq : truthyStr p.query = false)
    (hl : p.ingredients = some l) (hlne : l ≠ []) :
    recipe_search env p =
      ([ExtCall.filterByIngredients (String.intercalate "," l)],
        match env (ExtCall.filterByIngredients (String.intercalate "," l)) with
        | Except.ok data => ((data.getD []).take 12).map normalizeMeal
        | Except.error _ => []) := by
  cases henv : env (ExtCall.filterByIngredients (String.intercalate "," l)) <;>
    simp [recipe_search, truthyList, hq, hl, hlne, henv, Except.map]

/-- Reduction of `recipe_search` when both query and ingredients are falsy. -/
theorem recipe_search_none_eq (env : ExtCall → Except Unit (Option (List MealJson)))
    (p : RecipeSearch) (hq : truthyStr p.query = false)
    (hl : truthyList p.ingredients = false) :
    recipe_search env p = ([], []) := by
  simp [recipe_search, hq, hl]

/-- Claim C7 counterexample: a request whose query is set to the empty
string makes no external call at all (the handler checks Python
truthiness, not presence), refuting that a set query always reaches the
search-by-name endpoint. -/
theorem recipe_dispatch_query_cex :
    recipe_search envFail pEmptyQuery = ([], []) ∧
    ([] : List ExtCall) ≠ [ExtCall.searchByName ""] :=
  ⟨rfl, by decide⟩

/-- Claim C7 amended: if the query is set and non-empty the search-by-name
endpoint is called with it; otherwise if the ingredient list is set and
non-empty the filter-by-ingredients endpoint is called with the
comma-joined list; otherwise the handler returns an empty result list
without any external call. -/
theorem recipe_dispatch_spec (env : ExtCall → Except Unit (Option (List MealJson)))
    (p : RecipeSearch) :
    (∀ q, p.query = some q → q ≠ "" →
      (recipe_search env p).1 = [ExtCall.searchByName q]) ∧
    ((p.query = none ∨ p.query = some "") →
      ∀ l, p.ingredients = some l → l ≠ [] →
        (recipe_search env p).1 =
          [ExtCall.filterByIngredients (String.intercalate "," l)]) ∧
    ((p.query = none ∨ p.query = some "") →
      (p.ingredients = none ∨ p.ingredients = some []) →
      recipe_search env p = ([], [])) := by
  refine ⟨?_, ?_, ?_⟩
  · intro q hq hne
    rw [recipe_search_query_eq env p q hq hne]
  · intro hq l hl hlne
    have hqf : truthyStr p.query = false := by
      rcases hq with hq | hq <;> simp [truthyStr, hq]
    rw [recipe_search_ingr_eq env p l hqf hl hlne]
  · intro hq hl
    have hqf : truthyStr p.query = false := by
      rcases hq with hq | hq <;> simp [truthyStr, hq]
    have hlf : truthyList p.ingredients = false := by
      rcases hl with hl | hl <;> simp [truthyList, hl]
    exact recipe_search_none_eq env p hqf hlf

/-- Claim C7 witness: the three dispatch behaviors at concrete inputs. -/
theorem recipe_dispatch_witness :
    (recipe_search envFail pQuery).1 = [ExtCall.searchByName "chicken"] ∧
    (recipe_search envFail pIngr).1 =
      [ExtCall.filterByIngredients "tomato,basil"] ∧
    recipe_search envFail pNone = ([], []) :=
  ⟨(recipe_dispatch_spec envFail pQuery).1 "chicken" rfl (by decide),
   (recipe_dispatch_spec envFail pIngr).2.1 (Or.inl rfl) ["tomato", "basil"]
     rfl (by decide),
   (recipe_dispatch_spec envFail pNone).2.2 (Or.inl rfl) (Or.inl rfl)⟩

/-- Claim C8: whenever the external call the handler issued fails, the
failure is swallowed and the handler still returns an empty result list
as a normal response (the model is total, so no HTTP error can
surface). -/
theorem recipe_failure_suppressed (env : ExtCall → Except Unit (Option (List MealJson)))
    (p : RecipeSearch) (c : ExtCall)
    (hc : (recipe_search env p).1 = [c]) (he : env c = Except.error ()) :
    (recipe_search env p).2 = [] := by
  by_cases h1 : truthyStr p.query
  · obtain ⟨q, hq⟩ : ∃ q, p.query = some q := by
      cases hpq : p.query
      · rw [hpq] at h1; simp [truthyStr] at h1
      · exact ⟨_, rfl⟩
    have hne : q ≠ "" := by
      rw [hq] at h1; simpa [truthyStr] using h1
    have heq := recipe_search_query_eq env p q hq hne
    have hcq : c = ExtCall.searchByName q := by
      rw [heq] at hc
      simpa using hc.symm
    rw [hcq] at he
    rw [heq]
    simp [he]
  · by_cases h2 : truthyList p.ingredients
    · obtain ⟨l, hl⟩ : ∃ l, p.ingredients = some l := by
        cases hpl : p.ingredients
        · rw [hpl] at h2; simp [truthyList] at h2
        · exact ⟨_, rfl⟩
      have hlne : l ≠ [] := by
        rw [hl] at h2; simpa [truthyList] using h2
      have heq := recipe_search_ingr_eq env p l (by simpa using h1) hl hlne
      have hcl : c = ExtCall.filterByIngredients (String.intercalate "," l) := by
        rw [heq] at hc
        simpa using hc.symm
      rw [hcl] at he
      rw [heq]
      simp [he]
    · have heq := recipe_search_none_eq env p (by simpa using h1) (by simpa using h2)
      rw [heq] at hc
      simp at hc

/-- Claim C8 witness: a failing external service still produces an empty
result list for a concrete query. -/
theorem recipe_failure_witness :
    (recipe_search envFail pQuery).2 = [] :=
  recipe_failure_suppressed envFail pQuery (ExtCall.searchByName "chicken") rfl rfl

/-- Claim C9: when the external call the handler issued returns a meals
list, the results are exactly the first 12 (or fewer) meals in external
order, each normalized to the five fields id, title, thumbnail,
category, area taken from idMeal, strMeal, strMealThumb, strCategory,
strArea; extra fields never influence the normalization, and missing
fields pass through as absent. -/
theorem recipe_normalize_spec (env : ExtCall → Except Unit (Option (List MealJson)))
    (p : RecipeSearch) (c : ExtCall) (ms : List MealJson)
    (hc : (recipe_search env p).1 = [c])
    (hm : env c = Except.ok (some ms)) :
    (recipe_search env p).2 = (ms.take 12).map normalizeMeal ∧
    (recipe_search env p).2.length = min 12 ms.length ∧
    ∀ (m : MealJson) (ex : List (String × String)),
      normalizeMeal ⟨m.idMeal, m.strMeal, m.strMealThumb, m.strCategory,
        m.strArea, ex⟩ = normalizeMeal m := by
  have hmain : (recipe_search env p).2 = (ms.take 12).map normalizeMeal := by
    by_cases h1 : truthyStr p.query
    · obtain ⟨q, hq⟩ : ∃ q, p.query = some q := by
        cases hpq : p.query
        · rw [hpq] at h1; simp [truthyStr] at h1
        · exact ⟨_, rfl⟩
      have hne : q ≠ "" := by
        rw [hq] at h1; simpa [truthyStr] using h1
      have heq := recipe_search_query_eq env p q hq hne
      have hcq : c = ExtCall.searchByName q := by
        rw [heq] at hc
        simpa using hc.symm
      rw [hcq] at hm
      rw [heq]
      simp [hm]
    · by_cases h2 : truthyList p.ingredients
      · obtain ⟨l, hl⟩ : ∃ l, p.ingredients = some l := by
          cases hpl : p.ingredients
          · rw [hpl] at h2; simp [truthyList] at h2
          · exact ⟨_, rfl⟩
        have hlne : l ≠ [] := by
          rw [hl] at h2; simpa [truthyList] using h2
        have heq := recipe_search_ingr_eq env p l (by simpa using h1) hl hlne
        have hcl : c = ExtCall.filterByIngredients (String.intercalate "," l) := by
          rw [heq] at hc
          simpa using hc.symm
        rw [hcl] at hm
        rw [heq]
        simp [hm]
      · have heq := recipe_search_none_eq env p (by simpa using h1) (by simpa using h2)
        rw [heq] at hc
        simp at hc
  refine ⟨hmain, ?_, fun m ex => rfl⟩
  rw [hmain]
  simp

/-- Claim C9 witness: a 13-meal external response is truncated to its
first 12 meals, normalized, in order. -/
theorem recipe_normalize_witness :
    (recipe_search envOk pQuery).2 = (msL.take 12).map normalizeMeal ∧
    (recipe_search envOk pQuery).2.length = 12 :=
  ⟨(recipe_normalize_spec envOk pQuery (ExtCall.searchByName "chicken") msL
      rfl rfl).1,
   (recipe_normalize_spec envOk pQuery (ExtCall.searchByName "chicken") msL
      rfl rfl).2.1⟩
